import Mathlib

/-!
Shallow embedding of `src/processor/handlers.js`, the transaction processor of
the land-transfer-blockchain repository ("transfer-chain" family).

Modelling conventions:

* Addresses.  In the source an address is the 6-hex-char family prefix, a
  2-hex-char entity-kind code, and a 62-hex-char sha512 hash of the entity key.
  The prefix is one fixed string and the hash is collision-resistant and
  reproducible across nodes, so an address is determined by, and determines,
  the pair (kind code, key).  We model an address as that pair (`Addr`);
  distinct kind codes or distinct keys give distinct addresses, which is
  exactly the intent of the scheme.

* Bytes and records.  Stored values are either `Buffer(0)` (zero length,
  meaning absent/cleared) or `encode(obj)` where
  `encode = obj => Buffer.from(JSON.stringify(obj, Object.keys(obj).sort()))`
  and every stored object is a flat record of string-valued fields.  The JSON
  text of such a record is determined by, and determines, the sequence of
  (field name, value) pairs it lists, so we model a byte string by that
  sequence: `Bytes := List (String × String)`, with `[]` playing the role of
  the zero-length buffer.  `JSON.stringify(obj, keys)` with a key-array
  replacer emits the fields in the order of the array, here
  `Object.keys(obj).sort()`; since `Object.keys` of a JS object never repeats
  a key, emitting the pairs in sorted-key order is the same as sorting the
  pair list by key, which is how `encode` is modelled.  `decode` is
  `JSON.parse(buf.toString())`: on the text of a record it returns the record
  with the fields in textual order, and on a zero-length buffer (or an
  `undefined` entry) it throws an untyped error (`SyntaxError` / `TypeError`),
  modelled by `Err.decodeError`.

* State.  `LState := Addr → Bytes` with `[]` for unset addresses.
  `state.get(addresses)` resolves to a mapping that is keyed only by the
  requested addresses; looking up any other address in it yields `undefined`.
  We model the mapping as `Addr → Option Bytes`, `none` for addresses that
  were not requested.  `state.set(mapping)` commits the mapping.

* Errors.  `InvalidTransaction(msg)` is the typed validation rejection; the
  message strings are represented by the constructors of `Msg` (one per
  distinct message in the source).  Untyped JS exceptions raised by `decode`
  are `Err.decodeError`.

* Handlers.  Each handler is a function `... → LState → Except Err Unit ×
  LState`: the first component is the JS promise outcome (resolution or the
  thrown error), the second the ledger state afterwards.  A `throw` aborts
  the chain at that point, leaving the state it had; the only state change is
  the single `state.set` at the end of the success path.  The handler bodies
  below follow the JS statement by statement.
-/

namespace TransferChain

/-- A ledger address: the entity-kind code (the 2 hex chars after the family
prefix) together with the entity key whose hash fills the rest. -/
structure Addr where
  kind : String
  key : String
deriving DecidableEq

/-- Source: getAssetAddress is the family prefix, kind code 00, then the hash of the name. -/
def getAssetAddress (name : String) : Addr := ⟨"00", name⟩

/-- Source: getTransferAddress is the family prefix, kind code 10, then the hash of the asset. -/
def getTransferAddress (asset : String) : Addr := ⟨"10", asset⟩

/-- Source: getTransferAcknAddress is the family prefix, kind code 11, then the hash of the asset. -/
def getTransferAcknAddress (asset : String) : Addr := ⟨"11", asset⟩

/-- Source: getTransferApproveAddress is the family prefix, kind code 12, then the hash of the asset. -/
def getTransferApproveAddress (asset : String) : Addr := ⟨"12", asset⟩

/-- Source: getRegulatorAddress is the family prefix, kind code 20, then the hash of the key. -/
def getRegulatorAddress (k : String) : Addr := ⟨"20", k⟩

/-- Source: getParticipantAddress is the family prefix, kind code 21, then the hash of the key. -/
def getParticipantAddress (k : String) : Addr := ⟨"21", k⟩

/-- A flat JSON record of string-valued fields, as the field list in the
order the object (or the JSON text) lists them. -/
abbrev Record := List (String × String)

/-- A stored byte string, modelled by the field sequence of the record text it
holds; `[]` is the zero-length buffer (absent/cleared). -/
abbrev Bytes := List (String × String)

/-- The `InvalidTransaction` message strings of the source, one constructor
per distinct message. -/
inductive Msg where
  /-- The message "Asset name in use". -/
  | assetNameInUse
  /-- The message "Asset does not exist". -/
  | assetDoesNotExist
  /-- the only-the-owner-may-transfer message of `transferAsset` -/
  | notOwner
  /-- The message "Asset is not being transfered". -/
  | notTransfered
  /-- The message "Transfers can only be acknowledged by the new buyer". -/
  | notBuyer
  /-- The message "You are not a regulator". -/
  | notRegulator
  /-- The message "Transfers can only be rejected by the potential new owner". -/
  | notNewOwner
  /-- the unknown-action message of `JSONHandler.apply` -/
  | invalidAction
deriving DecidableEq

/-- A handler outcome: a typed `InvalidTransaction` validation rejection, or
an untyped JS error thrown by `decode` on an empty/undefined buffer. -/
inductive Err where
  | invalidTransaction (m : Msg)
  | decodeError
deriving DecidableEq

/-- Source: `encode = obj => Buffer.from(JSON.stringify(obj, Object.keys(obj).sort()))`;
the fields are emitted in sorted key order (keys of a JS object are distinct,
so sorting the pair list by key is the same as sorting the key array and
projecting). -/
def encode (r : Record) : Bytes :=
  List.insertionSort (fun p q => p.1 ≤ q.1) r

/-- Source: `decode = buf => JSON.parse(buf.toString())`; on a zero-length buffer
`JSON.parse` throws (untyped); on the text of a record it returns the record
in textual field order. -/
def decode : Bytes → Except Err Record
  | [] => Except.error Err.decodeError
  | p :: ps => Except.ok (p :: ps)

/-- Lookup decoding: `decode` applied to an entry of a `state.get` result; an entry
for an address that was never requested is `undefined`, and
`undefined.toString()` throws (untyped). -/
def jsDecode : Option Bytes → Except Err Record
  | none => Except.error Err.decodeError
  | some b => decode b

/-- Truthiness-and-length test `entry && entry.length > 0` used by every
presence check. -/
def entryPresent : Option Bytes → Bool
  | none => false
  | some b => !b.isEmpty

/-- The ledger state: bytes at every address, `[]` when unset. -/
def LState := Addr → Bytes

/-- The state with nothing set. -/
def emptyState : LState := fun _ => []

/-- Point update of the state. -/
def setAddr (s : LState) (a : Addr) (b : Bytes) : LState :=
  fun x => if x = a then b else s x

/-- Source: `state.get(addresses)` resolves to a mapping keyed only by the requested addresses;
any other lookup is `undefined` (`none`). -/
def stGet (addrs : List Addr) (s : LState) : Addr → Option Bytes :=
  fun a => if a ∈ addrs then some (s a) else none

/-- Commit a write mapping: every listed address is set to its new bytes. -/
def commitWrites (ws : List (Addr × Bytes)) (s : LState) : LState :=
  ws.foldl (fun t p => setAddr t p.1 p.2) s

/-- Source: `state.set(mapping)`, the single committing write at the end of a
success path of a handler. -/
def stSet (ws : List (Addr × Bytes)) (s : LState) : Except Err Unit × LState :=
  (Except.ok (), commitWrites ws s)

/-- Source: `createAsset(asset, owner, state)` (lines 29-43). -/
def createAsset (asset owner : String) (state : LState) :
    Except Err Unit × LState :=
  let address := getAssetAddress asset
  let entries := stGet [address] state
  let entry := entries address
  if entryPresent entry then
    (Except.error (Err.invalidTransaction Msg.assetNameInUse), state)
  else
    stSet [(address, encode [("name", asset), ("owner", owner)])] state

/-- Source: `transferAsset(asset, owner, signer, state)` (lines 46-66), the
offer rule.  It computes `getTransferAddress asset` but never uses it; the
write goes to the acknowledgment address. -/
def transferAsset (asset owner signer : String) (state : LState) :
    Except Err Unit × LState :=
  let acknAddress := getTransferAcknAddress asset
  let assetAddress := getAssetAddress asset
  let entries := stGet [assetAddress] state
  let entry := entries assetAddress
  if !entryPresent entry then
    (Except.error (Err.invalidTransaction Msg.assetDoesNotExist), state)
  else
    match jsDecode entry with
    | Except.error e => (Except.error e, state)
    | Except.ok r =>
      if some signer ≠ r.lookup "owner" then
        (Except.error (Err.invalidTransaction Msg.notOwner), state)
      else
        stSet [(acknAddress, encode [("asset", asset), ("owner", owner)])] state

/-- Source: `acknowledgeTransfer(asset, signer, state)` (lines 69-91). -/
def acknowledgeTransfer (asset signer : String) (state : LState) :
    Except Err Unit × LState :=
  let acknAddress := getTransferAcknAddress asset
  let entries := stGet [acknAddress] state
  let entry := entries acknAddress
  if !entryPresent entry then
    (Except.error (Err.invalidTransaction Msg.notTransfered), state)
  else
    match jsDecode entry with
    | Except.error e => (Except.error e, state)
    | Except.ok r =>
      if some signer ≠ r.lookup "owner" then
        (Except.error (Err.invalidTransaction Msg.notBuyer), state)
      else
        stSet [(acknAddress, []),
               (getTransferApproveAddress asset,
                encode [("name", asset), ("owner", signer)])] state

/-- Source: `acceptTransfer(asset, signer, state)` (lines 94-114); only the
acknowledgment address is requested from the store, but the entries looked up
in the result are the ones for `getTransferAddress asset` and
`getRegulatorAddress signer` — neither was requested, so both lookups are
`undefined`. -/
def acceptTransfer (asset signer : String) (state : LState) :
    Except Err Unit × LState :=
  let acknAddress := getTransferAcknAddress asset
  let address := getTransferAddress asset
  let entries := stGet [acknAddress] state
  let entry := entries address
  let regularEntry := entries (getRegulatorAddress signer)
  if !entryPresent entry then
    (Except.error (Err.invalidTransaction Msg.notTransfered), state)
  else if !entryPresent regularEntry then
    (Except.error (Err.invalidTransaction Msg.notRegulator), state)
  else
    stSet [(address, encode [("name", asset), ("owner", signer)]),
           (getTransferApproveAddress asset, [])] state

/-- Source: `rejectTransfer(asset, signer, state)` (lines 117-136); the
presence check is commented out in the source, so `decode` runs on whatever
is at the kind-10 transfer address, throwing an untyped error when that slot
is empty. -/
def rejectTransfer (asset signer : String) (state : LState) :
    Except Err Unit × LState :=
  let address := getTransferAddress asset
  let entries := stGet [address] state
  let entry := entries address
  match jsDecode entry with
  | Except.error e => (Except.error e, state)
  | Except.ok r =>
    if some signer ≠ r.lookup "owner" then
      (Except.error (Err.invalidTransaction Msg.notNewOwner), state)
    else
      stSet [(address, [])] state

/-- A decoded request: the signer identity from the transaction header and
the `{action, asset, owner}` payload fields. -/
structure Txn where
  action : String
  asset : String
  owner : String
  signer : String

/-- Source: `JSONHandler.apply(txn, state)` (lines 145-167), dispatch on the
payload action string. -/
def applyTxn (txn : Txn) (state : LState) : Except Err Unit × LState :=
  if txn.action = "create" then createAsset txn.asset txn.signer state
  else if txn.action = "transfer" then
    transferAsset txn.asset txn.owner txn.signer state
  else if txn.action = "acknowledge" then
    acknowledgeTransfer txn.asset txn.signer state
  else if txn.action = "accept" then acceptTransfer txn.asset txn.signer state
  else if txn.action = "reject" then rejectTransfer txn.asset txn.signer state
  else (Except.error (Err.invalidTransaction Msg.invalidAction), state)

/-- One processed transaction, taking the state to the state the processor
leaves behind (unchanged when the handler throws). -/
def stepTxn (s s' : LState) : Prop := ∃ txn, (applyTxn txn s).2 = s'

/-- States reachable from the empty ledger by processing transactions. -/
inductive Reachable : LState → Prop
  | empty : Reachable emptyState
  | step {s s' : LState} : Reachable s → stepTxn s s' → Reachable s'

/-- The two record shapes the five rules store: `{name, owner}` (assets,
approval slots) and `{asset, owner}` (acknowledgment slots). -/
def StoredShape (r : Record) : Prop :=
  (∃ n o, r = [("name", n), ("owner", o)]) ∨
  (∃ a o, r = [("asset", a), ("owner", o)])

/-- Invariant: every kind-10 transfer slot is empty. -/
def TransferSlotsEmpty (s : LState) : Prop :=
  ∀ x, s (getTransferAddress x) = []

/-- A sample state holding the asset "widget" owned by "alice". -/
def sampleAssetState : LState :=
  setAddr emptyState (getAssetAddress "widget")
    [("name", "widget"), ("owner", "alice")]

/-- A sample state holding a pending transfer offer of "widget" to "bob" in
the acknowledgment slot. -/
def sampleOfferState : LState :=
  setAddr emptyState (getTransferAcknAddress "widget")
    [("asset", "widget"), ("owner", "bob")]

/-- A sample state holding an acknowledged transfer of "widget" to
prospective owner "bob" in the approval slot, with "regulator1" registered
as a regulator. -/
def sampleApprovalState : LState :=
  setAddr
    (setAddr emptyState (getTransferApproveAddress "widget")
      [("name", "widget"), ("owner", "bob")])
    (getRegulatorAddress "regulator1") [("name", "regulator1")]

lemma sorted_pair_le {k1 k2 : String} (h : k1 ≤ k2) (v1 v2 : String) :
    List.Sorted (fun p q : String × String => p.1 ≤ q.1) [(k1, v1), (k2, v2)] := by
  rw [List.sorted_cons]
  refine ⟨?_, List.sorted_singleton _⟩
  intro b hb
  rw [List.mem_singleton] at hb
  subst hb
  exact h

lemma encode_name_owner (n o : String) :
    encode [("name", n), ("owner", o)] = [("name", n), ("owner", o)] :=
  List.Sorted.insertionSort_eq
    (sorted_pair_le (by rw [String.le_iff_toList_le]; decide) n o)

lemma encode_asset_owner (a o : String) :
    encode [("asset", a), ("owner", o)] = [("asset", a), ("owner", o)] :=
  List.Sorted.insertionSort_eq
    (sorted_pair_le (by rw [String.le_iff_toList_le]; decide) a o)

/-- The rule `acceptTransfer` looks up the kind-10 transfer address in a read result
keyed only by the kind-11 acknowledgment address, so the lookup is always
`undefined` and the first check always throws. -/
lemma acceptTransfer_eq (asset signer : String) (s : LState) :
    acceptTransfer asset signer s =
      (Except.error (Err.invalidTransaction Msg.notTransfered), s) := by
  unfold acceptTransfer
  simp [stGet, getTransferAddress, getTransferAcknAddress, getRegulatorAddress,
    entryPresent, Addr.mk.injEq]

/-- The rule `createAsset` either leaves the state unchanged (throw) or performs its
single write. -/
lemma createAsset_run (asset owner : String) (s : LState) :
    (createAsset asset owner s).2 = s ∨
    createAsset asset owner s =
      stSet [(getAssetAddress asset,
              encode [("name", asset), ("owner", owner)])] s := by
  simp only [createAsset]
  split
  · exact Or.inl rfl
  · exact Or.inr rfl

/-- The rule `transferAsset` either leaves the state unchanged (throw) or performs its
single write to the acknowledgment slot. -/
lemma transferAsset_run (asset owner signer : String) (s : LState) :
    (transferAsset asset owner signer s).2 = s ∨
    transferAsset asset owner signer s =
      stSet [(getTransferAcknAddress asset,
              encode [("asset", asset), ("owner", owner)])] s := by
  simp only [transferAsset]
  split
  · exact Or.inl rfl
  · split
    · exact Or.inl rfl
    · split
      · exact Or.inl rfl
      · exact Or.inr rfl

/-- The rule `acknowledgeTransfer` either leaves the state unchanged (throw) or
performs its single two-address write. -/
lemma acknowledgeTransfer_run (asset signer : String) (s : LState) :
    (acknowledgeTransfer asset signer s).2 = s ∨
    acknowledgeTransfer asset signer s =
      stSet [(getTransferAcknAddress asset, []),
             (getTransferApproveAddress asset,
              encode [("name", asset), ("owner", signer)])] s := by
  simp only [acknowledgeTransfer]
  split
  · exact Or.inl rfl
  · split
    · exact Or.inl rfl
    · split
      · exact Or.inl rfl
      · exact Or.inr rfl

/-- The rule `rejectTransfer` either leaves the state unchanged (throw) or performs
its single clearing write. -/
lemma rejectTransfer_run (asset signer : String) (s : LState) :
    (rejectTransfer asset signer s).2 = s ∨
    rejectTransfer asset signer s =
      stSet [(getTransferAddress asset, [])] s := by
  simp only [rejectTransfer]
  split
  · exact Or.inl rfl
  · split
    · exact Or.inl rfl
    · exact Or.inr rfl

/-- No rule ever writes non-empty data into a kind-10 transfer slot. -/
lemma stepTxn_preserves_transferSlotsEmpty {s s' : LState}
    (hinv : TransferSlotsEmpty s) (hstep : stepTxn s s') :
    TransferSlotsEmpty s' := by
  rcases hstep with ⟨txn, rfl⟩
  intro x
  unfold applyTxn
  split_ifs
  · rcases createAsset_run txn.asset txn.signer s with hc | hc
    · rw [hc]; exact hinv x
    · rw [hc]
      simp only [stSet, commitWrites, List.foldl, setAddr, getAssetAddress,
        getTransferAddress, Addr.mk.injEq]
      simp only [String.reduceEq, false_and, if_false]
      exact hinv x
  · rcases transferAsset_run txn.asset txn.owner txn.signer s with hc | hc
    · rw [hc]; exact hinv x
    · rw [hc]
      simp only [stSet, commitWrites, List.foldl, setAddr,
        getTransferAcknAddress, getTransferAddress, Addr.mk.injEq]
      simp only [String.reduceEq, false_and, if_false]
      exact hinv x
  · rcases acknowledgeTransfer_run txn.asset txn.signer s with hc | hc
    · rw [hc]; exact hinv x
    · rw [hc]
      simp only [stSet, commitWrites, List.foldl, setAddr,
        getTransferAcknAddress, getTransferApproveAddress, getTransferAddress,
        Addr.mk.injEq]
      simp only [String.reduceEq, false_and, if_false]
      exact hinv x
  · rw [acceptTransfer_eq]; exact hinv x
  · rcases rejectTransfer_run txn.asset txn.signer s with hc | hc
    · rw [hc]; exact hinv x
    · rw [hc]
      simp only [stSet, commitWrites, List.foldl, setAddr]
      split
      · rfl
      · exact hinv x
  · exact hinv x

/-- Every reachable state has all kind-10 transfer slots empty. -/
lemma reachable_transferSlotsEmpty {s : LState} (hr : Reachable s) :
    TransferSlotsEmpty s := by
  induction hr with
  | empty => intro x; rfl
  | step _ hstep ih => exact stepTxn_preserves_transferSlotsEmpty ih hstep

/-- C8: for every prior state, asset and signer, the approve/accept rule
never succeeds: `acceptTransfer` reads only the acknowledgment address from
the store but tests presence of the transfer-offer entry and the regulator
entry in the returned mapping, both of which are always absent from that
mapping, so it always throws before reaching its write and leaves the state
unchanged. -/
theorem acceptTransfer_never_succeeds (asset signer : String) (s : LState) :
    acceptTransfer asset signer s =
      (Except.error (Err.invalidTransaction Msg.notTransfered), s) :=
  acceptTransfer_eq asset signer s

/-- C9: in every state reachable from the empty state via the five rules, a
kind-10 transfer address never holds non-empty data (no rule ever writes a
non-empty record there), so `rejectTransfer` — which reads only that address
and whose presence check is disabled — never finds a record there, never
clears a pending offer, and rejects with an untyped decode error rather than
a typed validation rejection, leaving the state unchanged. -/
theorem rejectTransfer_dead_slot (s : LState) (hr : Reachable s)
    (asset signer : String) :
    s (getTransferAddress asset) = [] ∧
    rejectTransfer asset signer s = (Except.error Err.decodeError, s) := by
  have hinv := reachable_transferSlotsEmpty hr
  refine ⟨hinv asset, ?_⟩
  unfold rejectTransfer
  simp [stGet, jsDecode, hinv asset, decode]

/-- Witness for C9: the empty state is reachable and `rejectTransfer`
behaves there as stated. -/
theorem rejectTransfer_dead_slot_witness :
    emptyState (getTransferAddress "widget") = [] ∧
    rejectTransfer "widget" "alice" emptyState =
      (Except.error Err.decodeError, emptyState) :=
  rejectTransfer_dead_slot emptyState Reachable.empty "widget" "alice"

/-- C10: every rule performs all of its reads and validation checks before
its single `state.set`, so whenever the processor rejects a transaction with
any error, the ledger state is unchanged — its write-set is empty. -/
theorem applyTxn_atomic_on_error (txn : Txn) (s : LState) (e : Err)
    (h : (applyTxn txn s).1 = Except.error e) : (applyTxn txn s).2 = s := by
  unfold applyTxn at h ⊢
  split_ifs at h ⊢
  · rcases createAsset_run txn.asset txn.signer s with hc | hc
    · exact hc
    · rw [hc] at h; simp [stSet] at h
  · rcases transferAsset_run txn.asset txn.owner txn.signer s with hc | hc
    · exact hc
    · rw [hc] at h; simp [stSet] at h
  · rcases acknowledgeTransfer_run txn.asset txn.signer s with hc | hc
    · exact hc
    · rw [hc] at h; simp [stSet] at h
  · rw [acceptTransfer_eq]
  · rcases rejectTransfer_run txn.asset txn.signer s with hc | hc
    · exact hc
    · rw [hc] at h; simp [stSet] at h
  · rfl

/-- Witness for C10: an unknown action is rejected and leaves the empty
state unchanged. -/
theorem applyTxn_atomic_on_error_witness :
    (applyTxn ⟨"destroy", "widget", "bob", "alice"⟩ emptyState).1 =
      Except.error (Err.invalidTransaction Msg.invalidAction) ∧
    (applyTxn ⟨"destroy", "widget", "bob", "alice"⟩ emptyState).2 =
      emptyState :=
  ⟨rfl, applyTxn_atomic_on_error ⟨"destroy", "widget", "bob", "alice"⟩
    emptyState (Err.invalidTransaction Msg.invalidAction) rfl⟩

/-- C1: the claim fails on the code. In a state in which
TransferApproval["widget"] holds prospective owner "bob" and
Regulator["regulator1"] is present, ApproveTransfer("widget",
signer="regulator1") does not succeed and writes nothing: it throws the
not-being-transferred rejection (the rule looks the transfer-offer and
regulator entries up in a read result keyed only by the acknowledgment
address) and leaves every address unchanged. -/
theorem approveTransfer_pending_approval_still_throws :
    sampleApprovalState (getTransferApproveAddress "widget") =
      [("name", "widget"), ("owner", "bob")] ∧
    sampleApprovalState (getRegulatorAddress "regulator1") =
      [("name", "regulator1")] ∧
    acceptTransfer "widget" "regulator1" sampleApprovalState =
      (Except.error (Err.invalidTransaction Msg.notTransfered),
        sampleApprovalState) := by
  refine ⟨?_, ?_, acceptTransfer_eq _ _ _⟩
  · simp [sampleApprovalState, setAddr, getTransferApproveAddress,
      getRegulatorAddress, Addr.mk.injEq]
  · simp [sampleApprovalState, setAddr]

/-- C2: on an asset with no prior offer (all transfer-related slots empty),
AcknowledgeTransfer and ApproveTransfer fail with the typed "not being
transfered" validation rejection and write nothing, but RejectTransfer —
whose presence check is commented out — fails with an untyped decode error
rather than the typed "no pending" rejection (it too writes nothing). -/
theorem no_offer_rejections (asset signer : String) (s : LState)
    (h1 : s (getTransferAcknAddress asset) = [])
    (h2 : s (getTransferAddress asset) = [])
    (h3 : s (getTransferApproveAddress asset) = []) :
    acknowledgeTransfer asset signer s =
      (Except.error (Err.invalidTransaction Msg.notTransfered), s) ∧
    acceptTransfer asset signer s =
      (Except.error (Err.invalidTransaction Msg.notTransfered), s) ∧
    rejectTransfer asset signer s = (Except.error Err.decodeError, s) := by
  refine ⟨?_, acceptTransfer_eq _ _ _, ?_⟩
  · simp [acknowledgeTransfer, stGet, entryPresent, h1]
  · simp [rejectTransfer, stGet, jsDecode, decode, h2]

/-- Witness for C2: the behavior on the empty state. -/
theorem no_offer_rejections_witness :
    emptyState (getTransferAcknAddress "widget") = [] ∧
    acknowledgeTransfer "widget" "alice" emptyState =
      (Except.error (Err.invalidTransaction Msg.notTransfered), emptyState) ∧
    rejectTransfer "widget" "alice" emptyState =
      (Except.error Err.decodeError, emptyState) :=
  ⟨rfl, (no_offer_rejections "widget" "alice" emptyState rfl rfl rfl).1,
   (no_offer_rejections "widget" "alice" emptyState rfl rfl rfl).2.2⟩

/-- C4: when the acknowledgment slot for `asset` holds a record whose owner
equals `signer`, AcknowledgeTransfer succeeds, clears the acknowledgment
slot (writes a zero-length value there), sets TransferApproval[asset] to
`{name: asset, owner: signer}`, and changes no other address. -/
theorem acknowledgeTransfer_ok (asset signer : String) (s : LState)
    (hne : s (getTransferAcknAddress asset) ≠ [])
    (hown : (s (getTransferAcknAddress asset)).lookup "owner" = some signer) :
    (acknowledgeTransfer asset signer s).1 = Except.ok () ∧
    (acknowledgeTransfer asset signer s).2 (getTransferAcknAddress asset) =
      [] ∧
    (acknowledgeTransfer asset signer s).2 (getTransferApproveAddress asset) =
      encode [("name", asset), ("owner", signer)] ∧
    ∀ a, a ≠ getTransferAcknAddress asset →
      a ≠ getTransferApproveAddress asset →
      (acknowledgeTransfer asset signer s).2 a = s a := by
  have hrun : acknowledgeTransfer asset signer s =
      stSet [(getTransferAcknAddress asset, []),
             (getTransferApproveAddress asset,
              encode [("name", asset), ("owner", signer)])] s := by
    cases hsv : s (getTransferAcknAddress asset) with
    | nil => exact absurd hsv hne
    | cons p ps =>
      rw [hsv] at hown
      simp [acknowledgeTransfer, stGet, entryPresent, jsDecode, decode, hsv,
        hown]
  rw [hrun]
  refine ⟨rfl, ?_, ?_, ?_⟩
  · simp [stSet, commitWrites, setAddr, getTransferAcknAddress,
      getTransferApproveAddress, Addr.mk.injEq]
  · simp [stSet, commitWrites, setAddr]
  · intro a ha1 ha2
    simp [stSet, commitWrites, setAddr, ha1, ha2]

/-- Witness for C4: acknowledging the sample offer of "widget" to "bob". -/
theorem acknowledgeTransfer_ok_witness :
    sampleOfferState (getTransferAcknAddress "widget") ≠ [] ∧
    (sampleOfferState (getTransferAcknAddress "widget")).lookup "owner" =
      some "bob" ∧
    (acknowledgeTransfer "widget" "bob" sampleOfferState).1 = Except.ok () ∧
    (acknowledgeTransfer "widget" "bob" sampleOfferState).2
      (getTransferAcknAddress "widget") = [] ∧
    (acknowledgeTransfer "widget" "bob" sampleOfferState).2
      (getTransferApproveAddress "widget") =
      encode [("name", "widget"), ("owner", "bob")] ∧
    (acknowledgeTransfer "widget" "bob" sampleOfferState).2
      (getAssetAddress "widget") = sampleOfferState (getAssetAddress "widget") := by
  have h := acknowledgeTransfer_ok "widget" "bob" sampleOfferState
    (by decide) (by decide)
  exact ⟨by decide, by decide, h.1, h.2.1, h.2.2.1,
    h.2.2.2 (getAssetAddress "widget") (by decide) (by decide)⟩

/-- C3: for every valid record `r` (a record of string-valued fields as
stored by the five rules), `decode (encode r)` returns `r`, and re-encoding
the decoded record reproduces the encoded bytes. -/
theorem codec_roundtrip (r : Record) (h : StoredShape r) :
    decode (encode r) = Except.ok r ∧
    (decode (encode r)).map encode = Except.ok (encode r) := by
  rcases h with ⟨n, o, rfl⟩ | ⟨a, o, rfl⟩ <;>
    simp [encode_name_owner, encode_asset_owner, decode, Except.map]

/-- Witness for C3: the round trip on an asset record. -/
theorem codec_roundtrip_witness :
    StoredShape [("name", "widget"), ("owner", "alice")] ∧
    decode (encode [("name", "widget"), ("owner", "alice")]) =
      Except.ok [("name", "widget"), ("owner", "alice")] :=
  ⟨Or.inl ⟨"widget", "alice", rfl⟩,
   (codec_roundtrip _ (Or.inl ⟨"widget", "alice", rfl⟩)).1⟩

/-- C5: after `CreateAsset(n, A)` succeeds, `CreateAsset(n, B)` fails with
the asset-name-in-use rejection, writes nothing, and the stored owner of
Asset[n] remains `A`. -/
theorem createAsset_duplicate (n A B : String) (s : LState)
    (h : (createAsset n A s).1 = Except.ok ()) :
    (createAsset n B (createAsset n A s).2).1 =
      Except.error (Err.invalidTransaction Msg.assetNameInUse) ∧
    (createAsset n B (createAsset n A s).2).2 = (createAsset n A s).2 ∧
    ((createAsset n B (createAsset n A s).2).2 (getAssetAddress n)).lookup
      "owner" = some A := by
  have hstep : (createAsset n A s).2 =
      setAddr s (getAssetAddress n) [("name", n), ("owner", A)] := by
    by_cases hc :
      entryPresent (stGet [getAssetAddress n] s (getAssetAddress n)) = true
    · simp [createAsset, hc] at h
    · simp [createAsset, hc, stSet, commitWrites, encode_name_owner]
  obtain ⟨s1, hs1⟩ : ∃ s1, (createAsset n A s).2 = s1 := ⟨_, rfl⟩
  rw [hs1] at hstep
  rw [hs1]
  have hval : s1 (getAssetAddress n) = [("name", n), ("owner", A)] := by
    rw [hstep]; simp [setAddr]
  refine ⟨?_, ?_, ?_⟩ <;>
    simp [createAsset, stGet, entryPresent, hval, List.lookup]

/-- Witness for C5: creating "widget" for "alice" and again for "bob". -/
theorem createAsset_duplicate_witness :
    (createAsset "widget" "alice" emptyState).1 = Except.ok () ∧
    (createAsset "widget" "bob"
        (createAsset "widget" "alice" emptyState).2).1 =
      Except.error (Err.invalidTransaction Msg.assetNameInUse) ∧
    ((createAsset "widget" "bob"
        (createAsset "widget" "alice" emptyState).2).2
        (getAssetAddress "widget")).lookup "owner" = some "alice" :=
  ⟨rfl, (createAsset_duplicate "widget" "alice" "bob" emptyState rfl).1,
   (createAsset_duplicate "widget" "alice" "bob" emptyState rfl).2.2⟩

/-- C6: `OfferTransfer` (transferAsset) fails with the asset-does-not-exist
rejection and writes nothing when Asset[asset] is absent, and fails with the
not-owner rejection and writes nothing when Asset[asset] is present with an
owner different from the signer. -/
theorem transferAsset_rejections (asset owner signer : String) (s : LState) :
    (s (getAssetAddress asset) = [] →
      transferAsset asset owner signer s =
        (Except.error (Err.invalidTransaction Msg.assetDoesNotExist), s)) ∧
    (∀ o, (s (getAssetAddress asset)).lookup "owner" = some o → o ≠ signer →
      transferAsset asset owner signer s =
        (Except.error (Err.invalidTransaction Msg.notOwner), s)) := by
  constructor
  · intro h
    simp [transferAsset, stGet, entryPresent, h]
  · intro o hlk hno
    cases hsv : s (getAssetAddress asset) with
    | nil => rw [hsv] at hlk; simp at hlk
    | cons p ps =>
      rw [hsv] at hlk
      have hcond : some signer ≠ (p :: ps).lookup "owner" := by
        rw [hlk]
        simp only [ne_eq, Option.some.injEq]
        exact fun he => hno he.symm
      simp [transferAsset, stGet, entryPresent, jsDecode, decode, hsv, hcond]

/-- Witness for C6: offering an absent asset, and offering one owned by
"alice" with signer "eve". -/
theorem transferAsset_rejections_witness :
    emptyState (getAssetAddress "widget") = [] ∧
    transferAsset "widget" "bob" "alice" emptyState =
      (Except.error (Err.invalidTransaction Msg.assetDoesNotExist),
        emptyState) ∧
    (sampleAssetState (getAssetAddress "widget")).lookup "owner" =
      some "alice" ∧
    transferAsset "widget" "carol" "eve" sampleAssetState =
      (Except.error (Err.invalidTransaction Msg.notOwner),
        sampleAssetState) :=
  ⟨rfl,
   (transferAsset_rejections "widget" "bob" "alice" emptyState).1 rfl,
   by decide,
   (transferAsset_rejections "widget" "carol" "eve" sampleAssetState).2
     "alice" (by decide) (by decide)⟩

/-- C7: encoding is canonical: two records with the same field-name/value
pairs, in any order (and, as for any JS object, with no repeated field
name), encode to identical bytes. -/
theorem encode_canonical (r1 r2 : Record)
    (hnd : (r1.map Prod.fst).Nodup) (hp : r1.Perm r2) :
    encode r1 = encode r2 := by
  haveI : IsAntisymm (String × String) (fun p q => p.1 < q.1) :=
    ⟨fun a b h1 h2 => absurd h2 (lt_asymm h1)⟩
  haveI : IsTotal (String × String) (fun p q => p.1 ≤ q.1) :=
    ⟨fun a b => le_total a.1 b.1⟩
  haveI : IsTrans (String × String) (fun p q => p.1 ≤ q.1) :=
    ⟨fun _ _ _ hab hbc => le_trans hab hbc⟩
  have hperm1 : List.Perm (encode r1) r1 := List.perm_insertionSort _ _
  have hperm2 : List.Perm (encode r2) r2 := List.perm_insertionSort _ _
  have hstrict : ∀ (l : Record), List.Perm l r1 →
      List.Pairwise (fun p q : String × String => p.1 ≤ q.1) l →
      List.Pairwise (fun p q : String × String => p.1 < q.1) l := by
    intro l hl hs
    have hndl : (l.map Prod.fst).Nodup :=
      ((hl.map Prod.fst).nodup_iff).mpr hnd
    have hne : List.Pairwise (fun p q : String × String => p.1 ≠ q.1) l :=
      (List.pairwise_map).mp hndl
    exact (hs.and hne).imp fun h => lt_of_le_of_ne h.1 h.2
  exact List.eq_of_perm_of_sorted
    (hperm1.trans (hp.trans hperm2.symm))
    (hstrict _ hperm1 (List.sorted_insertionSort _ _))
    (hstrict _ (hperm2.trans hp.symm) (List.sorted_insertionSort _ _))

/-- Witness for C7: the same two fields in both orders encode equally. -/
theorem encode_canonical_witness :
    (([("owner", "bob"), ("name", "widget")] : Record).map Prod.fst).Nodup ∧
    List.Perm ([("owner", "bob"), ("name", "widget")] : Record)
      [("name", "widget"), ("owner", "bob")] ∧
    encode [("owner", "bob"), ("name", "widget")] =
      encode [("name", "widget"), ("owner", "bob")] :=
  ⟨by decide, by decide,
   encode_canonical _ _ (by decide) (by decide)⟩

end TransferChain
